import Mathlib

/-!
Shallow embedding of the media-acquisition core of `src/App.py`
(Twitter-Video-Downloader): the filename sanitizer `sanitize_filename`,
the two extractor adapters `download_video_max_quality` and
`download_images_max_quality` of class `HighQualityTwitterDownloader`,
and the orchestrator `download`.

External effects (the yt-dlp library call, the gallery-dl subprocess and
the file system) are modelled as explicit environment values handed to
the adapters: an adapter either observes a raised exception (modelled by
a `raises` constructor carrying the exception text `str(e)`) or the
tool's observable results (extracted metadata and a file-size oracle for
the video tool; the directory listings before and after the call, the
exit code, the standard-error text and a file-size oracle for the image
tool).  Python dictionaries returned by the adapters are modelled as a
structure whose optional fields are `none` exactly when the dictionary
lacks the key.  Python floats are modelled as rationals; `round(x, 2)`
is modelled as rounding the rational to two decimal places.
-/

set_option autoImplicit false

/-- Result dictionary returned by the adapters and the orchestrator in
`App.py`.  A field is `none` when the Python dict lacks the key. -/
structure DlResult where
  success : Bool
  type : Option String := none
  resolution : Option String := none
  fps : Option ℚ := none
  size_mb : Option ℚ := none
  filename : Option String := none
  count : Option Nat := none
  files : Option (List String) := none
  error : Option String := none
  url : Option String := none
  deriving DecidableEq, Repr

/-- Characters removed by `sanitize_filename` (the regex class
`[\\/*?:"<>|]` at `App.py:56`). -/
def illegalChars : List Char := ['\\', '/', '*', '?', ':', '"', '<', '>', '|']

/-- Left-to-right scan of `re.sub(r'[\\/*?:"<>|]', "", text)`: every
character of the class is replaced by the empty string, all other
characters are kept. -/
def removeIllegal : List Char → List Char
  | [] => []
  | c :: cs => if c ∈ illegalChars then removeIllegal cs else c :: removeIllegal cs

/-- Embedding of `sanitize_filename` (`App.py:52`). -/
def sanitize_filename (text : String) : String :=
  String.mk (removeIllegal text.data)

/-- Model of Python `round(q, 2)` on rationals: round to two decimal
places. -/
def round2 (q : ℚ) : ℚ := (round (q * 100) : ℤ) / 100

/-- Metadata dictionary returned by `ydl.extract_info` for the keys the
adapter reads: `id`, `width`, `height`, `fps`, `ext` (`.get` keys are
optional). -/
structure VideoInfo where
  id : String
  width : Option Nat
  height : Option Nat
  fps : Option ℚ
  ext : String

/-- Observable behaviour of the yt-dlp call: either it raises an
exception with text `msg`, or it returns metadata `info` with the file
system afterwards described by `fs` (size in bytes of each path that
exists, `none` for paths that do not exist). -/
inductive VideoEnv where
  | raises (msg : String)
  | extracted (info : VideoInfo) (fs : String → Option Nat)

/-- Rendering of an optional number inside a Python f-string
(`None` when the key is absent). -/
def optNatStr : Option Nat → String
  | none => "None"
  | some n => toString n

/-- Output path built at `App.py:99`:
`f"{output_folder}/{info['id']}_{info.get('height')}p.{info['ext']}"`. -/
def videoFilename (output_folder : String) (info : VideoInfo) : String :=
  output_folder ++ "/" ++ info.id ++ "_" ++ optNatStr info.height ++ "p." ++ info.ext

/-- Embedding of `download_video_max_quality` (`App.py:76`). -/
def download_video_max_quality (output_folder : String) (env : VideoEnv) : DlResult :=
  match env with
  | .raises msg => { success := false, error := some msg }
  | .extracted info fs =>
      let filename := videoFilename output_folder info
      let raw_size_mb : ℚ :=
        match fs filename with
        | some bytes => (bytes : ℚ) / (1024 * 1024)
        | none => 0
      { success := true
        type := some "video"
        resolution := some (optNatStr info.width ++ "x" ++ optNatStr info.height)
        fps := info.fps
        size_mb := some (round2 raw_size_mb)
        filename := some filename }

/-- Observable behaviour of the gallery-dl subprocess call: either
`subprocess.run` raises (e.g. `TimeoutExpired` after 120 s) with text
`msg`, or it completes with the directory listing `before` taken before
the call, the listing `after` taken after it, the exit code
`returncode`, the standard-error text `stderr`, and the size in bytes
`fsize` of each file. -/
inductive ImageEnv where
  | raises (msg : String)
  | ran (before after : List String) (returncode : Int) (stderr : String)
      (fsize : String → Nat)

/-- Set difference `after - before` computed at `App.py:133`:
the files of the `after` listing that are not in the `before` listing. -/
def new_files (before after : List String) : List String :=
  after.filter (fun f => f ∉ before)

/-- Embedding of `download_images_max_quality` (`App.py:113`). -/
def download_images_max_quality (env : ImageEnv) : DlResult :=
  match env with
  | .raises msg => { success := false, error := some msg }
  | .ran before after returncode stderr fsize =>
      let nf := new_files before after
      if returncode = 0 ∧ nf ≠ [] then
        let total_size : ℚ := ((nf.map fsize).sum : ℚ) / (1024 * 1024)
        { success := true
          type := some "images"
          count := some nf.length
          size_mb := some (round2 total_size)
          files := some nf }
      else
        { success := false
          error := some (if stderr = "" then "No images found" else stderr) }

/-- Number of calls the orchestrator made to each adapter, recorded as
explicit state so that "the Image Adapter is never invoked" is
expressible. -/
structure CallTrace where
  videoCalls : Nat
  imageCalls : Nat
  deriving DecidableEq, Repr

/-- Embedding of the orchestrator `download` (`App.py:150`), returning
the result dictionary together with the adapter-call trace. -/
def download (output_folder : String) (venv : VideoEnv) (ienv : ImageEnv)
    (tweet_url : String) : DlResult × CallTrace :=
  let video_result := download_video_max_quality output_folder venv
  if video_result.success then
    ({ video_result with url := some tweet_url }, ⟨1, 0⟩)
  else
    let image_result := download_images_max_quality ienv
    if image_result.success then
      ({ image_result with url := some tweet_url }, ⟨1, 1⟩)
    else
      (image_result, ⟨1, 1⟩)

/-! Concrete environments used by witnesses and counterexamples. -/

/-- Sample extracted metadata for a successful video download. -/
def info0 : VideoInfo :=
  { id := "1234567890", width := some 1280, height := some 720, fps := some 30, ext := "mp4" }

/-- Sample file system on which no constructed path exists. -/
def fs0 : String → Option Nat := fun _ => none

/-- Video environment: extraction succeeds. -/
def venvOk : VideoEnv := .extracted info0 fs0

/-- Video environment: yt-dlp raises. -/
def venvErr : VideoEnv := .raises "ERROR: Unsupported URL"

/-- Image environment: subprocess raises (timeout). -/
def ienvErr : ImageEnv := .raises "Command timed out after 120 seconds"

/-- Image environment: exit code 0 and one new file. -/
def ienvOk : ImageEnv :=
  .ran [] ["downloads_hq/twitter_1_1.jpg"] 0 "" (fun _ => 1048576)

/-- Image environment: exit code 0, no new files, non-empty stderr. -/
def ienvNoNew : ImageEnv := .ran [] [] 0 "429 Too Many Requests" (fun _ => 0)

/-! Helper lemmas. -/

theorem removeIllegal_eq_filter (l : List Char) :
    removeIllegal l = l.filter (fun c => decide (c ∉ illegalChars)) := by
  induction l with
  | nil => rfl
  | cons c cs ih =>
      by_cases h : c ∈ illegalChars <;>
        simp [removeIllegal, List.filter, h, ih]

/-- C5: the Filename Sanitizer removes exactly the characters
`\ / * ? : " < > |`: no illegal character occurs in its output, the
output is a subsequence of the input (characters kept in original
order), and every legal character keeps its exact number of
occurrences.  The function is total by construction. -/
theorem sanitize_filename_spec (text : String) :
    (∀ c ∈ (sanitize_filename text).data, c ∉ illegalChars) ∧
    (sanitize_filename text).data.Sublist text.data ∧
    (∀ c, c ∉ illegalChars →
      (sanitize_filename text).data.count c = text.data.count c) := by
  refine ⟨?_, ?_, ?_⟩
  · intro c hc
    rw [sanitize_filename] at hc
    simp only [String.mk, removeIllegal_eq_filter, List.mem_filter] at hc
    simpa using hc.2
  · rw [sanitize_filename]
    simp only [String.mk, removeIllegal_eq_filter]
    exact List.filter_sublist _
  · intro c hc
    rw [sanitize_filename]
    simp only [String.mk, removeIllegal_eq_filter]
    rw [List.count_filter]
    simp [hc]

/-- Witness for `sanitize_filename_spec` at the concrete input
`"a:b\\c*d"`. -/
theorem sanitize_filename_spec_witness :
    ('a' ∈ (sanitize_filename "a:b\\c*d").data → 'a' ∉ illegalChars) ∧
    (sanitize_filename "a:b\\c*d").data.Sublist "a:b\\c*d".data ∧
    (sanitize_filename "a:b\\c*d").data.count 'a' = "a:b\\c*d".data.count 'a' :=
  ⟨(sanitize_filename_spec "a:b\\c*d").1 'a',
   (sanitize_filename_spec "a:b\\c*d").2.1,
   (sanitize_filename_spec "a:b\\c*d").2.2 'a' (by decide)⟩

theorem mem_new_files {before after : List String} {f : String} :
    f ∈ new_files before after ↔ f ∈ after ∧ f ∉ before := by
  simp [new_files]

theorem new_files_toFinset (before after : List String) :
    (new_files before after).toFinset = after.toFinset \ before.toFinset := by
  ext f
  simp [mem_new_files]

theorem images_run_eq (before after : List String) (rc : Int) (stderr : String)
    (fsize : String → Nat) :
    download_images_max_quality (.ran before after rc stderr fsize) =
      if rc = 0 ∧ new_files before after ≠ [] then
        { success := true
          type := some "images"
          count := some (new_files before after).length
          size_mb :=
            some (round2 ((((new_files before after).map fsize).sum : ℚ) / (1024 * 1024)))
          files := some (new_files before after) }
      else
        { success := false
          error := some (if stderr = "" then "No images found" else stderr) } := rfl

theorem video_raises_eq (output_folder : String) (msg : String) :
    download_video_max_quality output_folder (.raises msg) =
      { success := false, error := some msg } := rfl

theorem images_raises_eq (msg : String) :
    download_images_max_quality (.raises msg) =
      { success := false, error := some msg } := rfl

/-- C3: the Image Extraction Adapter's set of newly produced artifacts
is exactly the set difference `after - before` of the directory
listings, a file present before the invocation is never reported as
new, and any success outcome reports exactly this set as its files. -/
theorem new_files_diff_spec (before after : List String) :
    (new_files before after).toFinset = after.toFinset \ before.toFinset ∧
    (∀ f ∈ before, f ∉ new_files before after) ∧
    (∀ (rc : Int) (stderr : String) (fsize : String → Nat),
      (download_images_max_quality (.ran before after rc stderr fsize)).files =
          some (new_files before after) ∨
        (download_images_max_quality (.ran before after rc stderr fsize)).success = false) := by
  refine ⟨new_files_toFinset before after, ?_, ?_⟩
  · intro f hf hmem
    exact (mem_new_files.mp hmem).2 hf
  · intro rc stderr fsize
    by_cases h : rc = 0 ∧ new_files before after ≠ []
    · left
      rw [images_run_eq, if_pos h]
    · right
      rw [images_run_eq, if_neg h]

/-- Witness for `new_files_diff_spec` on listings `{a}` before and
`{a, b}` after: the reported new files exclude the pre-existing `a`. -/
theorem new_files_diff_spec_witness :
    (new_files ["a"] ["a", "b"]).toFinset =
      (["a", "b"] : List String).toFinset \ (["a"] : List String).toFinset ∧
    "a" ∉ new_files ["a"] ["a", "b"] :=
  ⟨(new_files_diff_spec ["a"] ["a", "b"]).1,
   (new_files_diff_spec ["a"] ["a", "b"]).2.1 "a" (by decide)⟩

/-- Counterexample to C4: with exit code 0, zero new files and the
non-empty standard-error text `"429 Too Many Requests"`, the failure
message is that stderr text, not a "no images found" message. -/
theorem images_zero_new_files_counterexample :
    (download_images_max_quality ienvNoNew).success = false ∧
    (download_images_max_quality ienvNoNew).error = some "429 Too Many Requests" ∧
    (download_images_max_quality ienvNoNew).error ≠ some "No images found" := by
  refine ⟨by decide, by decide, by decide⟩

/-- C4 (amended): the Image Extraction Adapter succeeds iff the exit
code is zero and the set of new files is non-empty; exit code zero with
zero new files yields a failure whose message is the stderr text when
non-empty and `"No images found"` when stderr is empty. -/
theorem images_success_iff (before after : List String) (rc : Int) (stderr : String)
    (fsize : String → Nat) :
    ((download_images_max_quality (.ran before after rc stderr fsize)).success = true ↔
      rc = 0 ∧ new_files before after ≠ []) ∧
    (rc = 0 → new_files before after = [] →
      (download_images_max_quality (.ran before after rc stderr fsize)).error =
        some (if stderr = "" then "No images found" else stderr)) := by
  constructor
  · rw [images_run_eq]
    by_cases h : rc = 0 ∧ new_files before after ≠ []
    · rw [if_pos h]
      exact iff_of_true rfl h
    · rw [if_neg h]
      exact iff_of_false (by simp) h
  · intro h0 hnf
    have hneg : ¬(rc = 0 ∧ new_files before after ≠ []) := fun hc => hc.2 hnf
    rw [images_run_eq, if_neg hneg]

/-- Witness for `images_success_iff` at exit code 0, empty listings and
stderr `"429 Too Many Requests"`. -/
theorem images_success_iff_witness :
    ((download_images_max_quality (.ran [] [] 0 "429 Too Many Requests" (fun _ => 0))).success
        = true ↔ (0 : Int) = 0 ∧ new_files [] [] ≠ []) ∧
    (download_images_max_quality (.ran [] [] 0 "429 Too Many Requests" (fun _ => 0))).error =
      some (if "429 Too Many Requests" = "" then "No images found"
        else "429 Too Many Requests") :=
  ⟨(images_success_iff [] [] 0 "429 Too Many Requests" (fun _ => 0)).1,
   (images_success_iff [] [] 0 "429 Too Many Requests" (fun _ => 0)).2 rfl (by decide)⟩

/-- C6: for every environment of the two external tools — including the
cases where a tool invocation raises an exception (network error, tool
crash, subprocess timeout) — the orchestrator returns a discriminated
outcome: success, or failure carrying an error message.  Totality of
`download` over all environments is the embedding of "never raises". -/
theorem download_total_discriminated (output_folder tweet_url : String)
    (venv : VideoEnv) (ienv : ImageEnv) :
    (download output_folder venv ienv tweet_url).1.success = true ∨
    ((download output_folder venv ienv tweet_url).1.success = false ∧
      ((download output_folder venv ienv tweet_url).1.error).isSome = true) := by
  cases venv with
  | extracted info fs =>
      left
      simp [download, download_video_max_quality]
  | raises msg =>
      cases ienv with
      | raises m2 =>
          right
          simp [download, download_video_max_quality, download_images_max_quality]
      | ran before after rc stderr fsize =>
          have hi := images_run_eq before after rc stderr fsize
          by_cases h : rc = 0 ∧ new_files before after ≠ []
          · rw [if_pos h] at hi
            left
            simp [download, download_video_max_quality, hi]
          · rw [if_neg h] at hi
            right
            simp [download, download_video_max_quality, hi]

/-- C7: on an Image Extraction Adapter failure after the subprocess
ran, the message is the stderr text when non-empty and
`"No images found"` when stderr is empty; when the invocation raises
(including a timeout), the message is the exception text. -/
theorem images_failure_message (msg : String) (before after : List String) (rc : Int)
    (stderr : String) (fsize : String → Nat) :
    download_images_max_quality (.raises msg) =
      { success := false, error := some msg } ∧
    ((download_images_max_quality (.ran before after rc stderr fsize)).success = false →
      (download_images_max_quality (.ran before after rc stderr fsize)).error =
        some (if stderr = "" then "No images found" else stderr)) := by
  constructor
  · rfl
  · intro hfail
    rw [images_run_eq] at hfail ⊢
    by_cases h : rc = 0 ∧ new_files before after ≠ []
    · rw [if_pos h] at hfail
      exact absurd hfail (by simp)
    · rw [if_neg h]

/-- Witness for `images_failure_message` on a timeout text and a
non-zero exit code with stderr `"error"`. -/
theorem images_failure_message_witness :
    download_images_max_quality (.raises "Command timed out after 120 seconds") =
      { success := false, error := some "Command timed out after 120 seconds" } ∧
    (download_images_max_quality (.ran [] [] 1 "error" (fun _ => 0))).error =
      some (if "error" = "" then "No images found" else "error") :=
  ⟨(images_failure_message "Command timed out after 120 seconds" [] [] 1 "error"
      (fun _ => 0)).1,
   (images_failure_message "Command timed out after 120 seconds" [] [] 1 "error"
      (fun _ => 0)).2 (by decide)⟩

theorem round2_nonneg {q : ℚ} (h : 0 ≤ q) : 0 ≤ round2 q := by
  have h1 : (0 : ℤ) ≤ round (q * 100) := by
    rw [round_eq]
    refine Int.floor_nonneg.mpr ?_
    nlinarith
  have h2 : (0 : ℚ) ≤ ((round (q * 100) : ℤ) : ℚ) := by
    exact_mod_cast h1
  rw [round2]
  exact div_nonneg h2 (by norm_num)

/-- C8: every success outcome of the Image Extraction Adapter carries
the count of new files, their combined size in megabytes computed from
the file sizes, and the sequence of their file paths; under a
duplicate-free directory listing the count is the cardinality of the
set of new files. -/
theorem images_success_payload (before after : List String) (rc : Int) (stderr : String)
    (fsize : String → Nat)
    (h : (download_images_max_quality (.ran before after rc stderr fsize)).success = true) :
    (download_images_max_quality (.ran before after rc stderr fsize)).type = some "images" ∧
    (download_images_max_quality (.ran before after rc stderr fsize)).count =
      some (new_files before after).length ∧
    (download_images_max_quality (.ran before after rc stderr fsize)).size_mb =
      some (round2 ((((new_files before after).map fsize).sum : ℚ) / (1024 * 1024))) ∧
    (download_images_max_quality (.ran before after rc stderr fsize)).files =
      some (new_files before after) ∧
    (after.Nodup →
      (download_images_max_quality (.ran before after rc stderr fsize)).count =
        some (after.toFinset \ before.toFinset).card) := by
  have hcond : rc = 0 ∧ new_files before after ≠ [] := by
    by_contra hc
    rw [images_run_eq, if_neg hc] at h
    exact absurd h (by simp)
  rw [images_run_eq, if_pos hcond]
  refine ⟨rfl, rfl, rfl, rfl, ?_⟩
  intro hnd
  have hlen : (new_files before after).length = (after.toFinset \ before.toFinset).card := by
    rw [← new_files_toFinset, List.toFinset_card_of_nodup]
    exact List.Nodup.filter _ hnd
  exact congrArg some hlen

/-- Witness for `images_success_payload` on exit code 0 and a single new
file of size 1 MiB. -/
theorem images_success_payload_witness :
    (download_images_max_quality ienvOk).type = some "images" ∧
    (download_images_max_quality ienvOk).count = some 1 := by
  have h := images_success_payload [] ["downloads_hq/twitter_1_1.jpg"] 0 ""
    (fun _ => 1048576) (by decide)
  refine ⟨h.1, ?_⟩
  have h2 := h.2.1
  have h3 : (new_files [] ["downloads_hq/twitter_1_1.jpg"]).length = 1 := by decide
  rw [h3] at h2
  exact h2

/-- C9: on success the reported size in megabytes is non-negative and
computed from the sizes recorded by the file-system oracle of the
environment (actual on-disk sizes, not tool metadata); a Video success
carries no file list, an ImageSet success carries no resolution and no
frame rate. -/
theorem success_size_nonneg_variant (output_folder : String) (info : VideoInfo)
    (fs : String → Option Nat) (before after : List String) (rc : Int)
    (stderr : String) (fsize : String → Nat) :
    ((download_video_max_quality output_folder (.extracted info fs)).size_mb =
        some (round2 (((fs (videoFilename output_folder info)).getD 0 : ℚ) / (1024 * 1024))) ∧
      (∀ q, (download_video_max_quality output_folder (.extracted info fs)).size_mb =
        some q → 0 ≤ q) ∧
      (download_video_max_quality output_folder (.extracted info fs)).files = none) ∧
    ((download_images_max_quality (.ran before after rc stderr fsize)).success = true →
      ((download_images_max_quality (.ran before after rc stderr fsize)).size_mb =
          some (round2 ((((new_files before after).map fsize).sum : ℚ) / (1024 * 1024))) ∧
        (∀ q, (download_images_max_quality (.ran before after rc stderr fsize)).size_mb =
          some q → 0 ≤ q) ∧
        (download_images_max_quality (.ran before after rc stderr fsize)).resolution = none ∧
        (download_images_max_quality (.ran before after rc stderr fsize)).fps = none)) := by
  constructor
  · refine ⟨?_, ?_, ?_⟩
    · cases hfs : fs (videoFilename output_folder info) with
      | none => simp [download_video_max_quality, hfs]
      | some bytes => simp [download_video_max_quality, hfs]
    · intro q hq
      cases hfs : fs (videoFilename output_folder info) with
      | none =>
          simp [download_video_max_quality, hfs] at hq
          rw [← hq]
          exact round2_nonneg le_rfl
      | some bytes =>
          simp [download_video_max_quality, hfs] at hq
          rw [← hq]
          refine round2_nonneg (div_nonneg ?_ (by norm_num))
          exact_mod_cast Nat.zero_le bytes
    · cases hfs : fs (videoFilename output_folder info) with
      | none => simp [download_video_max_quality, hfs]
      | some bytes => simp [download_video_max_quality, hfs]
  · intro h
    have hcond : rc = 0 ∧ new_files before after ≠ [] := by
      by_contra hc
      rw [images_run_eq, if_neg hc] at h
      exact absurd h (by simp)
    rw [images_run_eq, if_pos hcond]
    refine ⟨rfl, ?_, rfl, rfl⟩
    intro q hq
    have hq2 : round2 ((((new_files before after).map fsize).sum : ℚ) / (1024 * 1024)) = q := by
      simpa using hq
    rw [← hq2]
    refine round2_nonneg (div_nonneg ?_ (by norm_num))
    exact_mod_cast Nat.zero_le ((new_files before after).map fsize).sum

/-- Witness for `success_size_nonneg_variant` on a successful video
extraction and a one-file image download. -/
theorem success_size_nonneg_variant_witness :
    (download_video_max_quality "downloads_hq" (.extracted info0 fs0)).files = none ∧
    0 ≤ round2 (((fs0 (videoFilename "downloads_hq" info0)).getD 0 : ℚ) / (1024 * 1024)) ∧
    (download_images_max_quality
      (.ran [] ["downloads_hq/twitter_1_1.jpg"] 0 "" (fun _ => 1048576))).resolution = none := by
  have h := success_size_nonneg_variant "downloads_hq" info0 fs0 []
    ["downloads_hq/twitter_1_1.jpg"] 0 "" (fun _ => 1048576)
  exact ⟨h.1.2.2, h.1.2.1 _ h.1.1, (h.2 (by decide)).2.2.1⟩

/-- Counterexample to C1: on a URL where the video extraction succeeds,
the orchestrator's outcome differs from the Video Adapter's result —
the outcome additionally carries the request URL. -/
theorem video_verbatim_counterexample :
    (download "downloads_hq" venvOk ienvErr "https://x.com/u/status/1").1 ≠
      download_video_max_quality "downloads_hq" venvOk := by
  intro h
  have h2 := congrArg DlResult.url h
  simp [download, download_video_max_quality, venvOk, info0, fs0] at h2

/-- C1 (amended): if the Video Extraction Adapter reports success, the
orchestrator's outcome is tagged Video, equals the Video Adapter's
result with the request URL added as the only change, and the Image
Extraction Adapter is never invoked. -/
theorem video_success_preferred (output_folder tweet_url : String) (venv : VideoEnv)
    (ienv : ImageEnv)
    (h : (download_video_max_quality output_folder venv).success = true) :
    (download output_folder venv ienv tweet_url).1 =
      { download_video_max_quality output_folder venv with url := some tweet_url } ∧
    (download output_folder venv ienv tweet_url).1.type = some "video" ∧
    (download output_folder venv ienv tweet_url).2.imageCalls = 0 := by
  have hd : download output_folder venv ienv tweet_url =
      ({ download_video_max_quality output_folder venv with url := some tweet_url },
        ⟨1, 0⟩) := by
    simp [download, h]
  refine ⟨by rw [hd], ?_, by rw [hd]⟩
  rw [hd]
  cases venv with
  | raises msg =>
      rw [video_raises_eq] at h
      exact absurd h (by simp)
  | extracted info fs => rfl

/-- Witness for `video_success_preferred` on a successful video
extraction. -/
theorem video_success_preferred_witness :
    (download "downloads_hq" venvOk ienvErr "https://x.com/u/status/2").1 =
      { download_video_max_quality "downloads_hq" venvOk with
          url := some "https://x.com/u/status/2" } ∧
    (download "downloads_hq" venvOk ienvErr "https://x.com/u/status/2").1.type =
      some "video" ∧
    (download "downloads_hq" venvOk ienvErr "https://x.com/u/status/2").2.imageCalls = 0 :=
  video_success_preferred "downloads_hq" "https://x.com/u/status/2" venvOk ienvErr
    (by decide)

/-- Counterexample to C2: when the video adapter fails and the image
adapter succeeds, the final outcome differs from the Image Adapter's
result — the request URL is added to it. -/
theorem image_verbatim_counterexample :
    (download "downloads_hq" venvErr ienvOk "https://x.com/u/status/3").1 ≠
      download_images_max_quality ienvOk := by
  intro h
  have h2 := congrArg DlResult.url h
  have hv : (download_video_max_quality "downloads_hq" venvErr).success = false := by decide
  have hi : (download_images_max_quality ienvOk).success = true := by decide
  have hu : (download_images_max_quality ienvOk).url = none := by decide
  simp [download, hv, hi, hu] at h2

/-- C2 (amended): if the Video Extraction Adapter reports failure, the
orchestrator invokes the Image Extraction Adapter exactly once, and the
final outcome is the Image Adapter's result — verbatim when it is a
failure, and with the request URL added when it is a success. -/
theorem video_failure_fallback (output_folder tweet_url : String) (venv : VideoEnv)
    (ienv : ImageEnv)
    (h : (download_video_max_quality output_folder venv).success = false) :
    (download output_folder venv ienv tweet_url).2.imageCalls = 1 ∧
    ((download_images_max_quality ienv).success = true →
      (download output_folder venv ienv tweet_url).1 =
        { download_images_max_quality ienv with url := some tweet_url }) ∧
    ((download_images_max_quality ienv).success = false →
      (download output_folder venv ienv tweet_url).1 =
        download_images_max_quality ienv) := by
  by_cases hi : (download_images_max_quality ienv).success = true
  · have hd : download output_folder venv ienv tweet_url =
        ({ download_images_max_quality ienv with url := some tweet_url }, ⟨1, 1⟩) := by
      simp [download, h, hi]
    exact ⟨by rw [hd], fun _ => by rw [hd], fun hc => by simp [hi] at hc⟩
  · have hd : download output_folder venv ienv tweet_url =
        (download_images_max_quality ienv, ⟨1, 1⟩) := by
      simp [download, h, hi]
    exact ⟨by rw [hd], fun hc => absurd hc hi, fun _ => by rw [hd]⟩

/-- Witness for `video_failure_fallback` on a failing video extraction
followed by a failing (timed-out) image extraction. -/
theorem video_failure_fallback_witness :
    (download "downloads_hq" venvErr ienvErr "https://x.com/u/status/4").2.imageCalls = 1 ∧
    (download "downloads_hq" venvErr ienvErr "https://x.com/u/status/4").1 =
      download_images_max_quality ienvErr := by
  have h := video_failure_fallback "downloads_hq" "https://x.com/u/status/4" venvErr ienvErr
    (by decide)
  exact ⟨h.1, h.2.2 (by decide)⟩

/-- C10: the adapters always leave the `url` field empty; on adapter
success the orchestrator returns the adapter's result extended with
exactly one additional field, the request URL, while a final failure
outcome is returned without this addition. -/
theorem url_field_addition (output_folder tweet_url : String) (venv : VideoEnv)
    (ienv : ImageEnv) :
    (download_video_max_quality output_folder venv).url = none ∧
    (download_images_max_quality ienv).url = none ∧
    ((download_video_max_quality output_folder venv).success = true →
      (download output_folder venv ienv tweet_url).1 =
        { download_video_max_quality output_folder venv with url := some tweet_url }) ∧
    ((download_video_max_quality output_folder venv).success = false →
      (download_images_max_quality ienv).success = true →
      (download output_folder venv ienv tweet_url).1 =
        { download_images_max_quality ienv with url := some tweet_url }) ∧
    ((download_video_max_quality output_folder venv).success = false →
      (download_images_max_quality ienv).success = false →
      (download output_folder venv ienv tweet_url).1 = download_images_max_quality ienv ∧
        (download output_folder venv ienv tweet_url).1.url = none) := by
  have hvu : (download_video_max_quality output_folder venv).url = none := by
    cases venv with
    | raises msg => rfl
    | extracted info fs => rfl
  have hiu : (download_images_max_quality ienv).url = none := by
    cases ienv with
    | raises msg => rfl
    | ran before after rc stderr fsize =>
        rw [images_run_eq]
        by_cases h : rc = 0 ∧ new_files before after ≠ []
        · rw [if_pos h]
        · rw [if_neg h]
  refine ⟨hvu, hiu, ?_, ?_, ?_⟩
  · intro hv
    simp [download, hv]
  · intro hv hi
    simp [download, hv, hi]
  · intro hv hi
    have hd : (download output_folder venv ienv tweet_url).1 =
        download_images_max_quality ienv := by
      simp [download, hv, hi]
    exact ⟨hd, by rw [hd, hiu]⟩

/-- Witness for `url_field_addition` on a failing video extraction
followed by a successful image extraction. -/
theorem url_field_addition_witness :
    (download_images_max_quality ienvOk).url = none ∧
    (download "downloads_hq" venvErr ienvOk "https://x.com/u/status/5").1 =
      { download_images_max_quality ienvOk with url := some "https://x.com/u/status/5" } := by
  have h := url_field_addition "downloads_hq" "https://x.com/u/status/5" venvErr ienvOk
  exact ⟨h.2.1, h.2.2.2.1 (by decide) (by decide)⟩
